import Mathlib

/-!
Verification of the OAuth 2.0 authorization-server proxy of the macro-mcp
repository against its natural-language specification.

The repository contains several implementations of the same component:
* `src/src/routes/oauth.js` — the Express router ("lenient" variant): the
  pending authorization travels as an unsigned base64url JSON blob in the
  `state` parameter; issued codes live in the in-memory `authCodes` map.
* an earlier Express variant (strict PKCE) with the same token endpoint but
  a strict `/oauth/authorize` that rejects missing PKCE parameters with a
  JSON `invalid_request` error.
* `src/server.js` — the mcp-use server: server-side `pendingAuthorizations`
  and `authorizationCodes` maps, strict PKCE, plain-text error bodies on the
  authorize/callback endpoints and JSON errors on the token endpoint.
* `src/api/oauth/authorize.js` — the Vercel serverless authorize handler.

Each handler is embedded as a pure function from an explicit store and the
request parameters to the updated store and the HTTP response.  JavaScript
`undefined`-or-empty-string falsiness of request fields is modelled by
`jsFalsy` on `Option String`; wall-clock time (`Date.now()`) and generated
random values (`crypto.randomBytes`, `crypto.randomUUID`) are passed in as
parameters; the SHA-256/base64url digest used by PKCE is an uninterpreted
function parameter `sha`.
-/

namespace MacroMcp

/-- JavaScript falsiness of an optional string request field: a missing
(`undefined`) field and the empty string are both falsy (`if (!x)`). -/
def jsFalsy : Option String → Bool
  | none => true
  | some s => s == ""

/-- Body of a POST to the token endpoint, as destructured from `req.body`:
`grant_type`, `code`, `redirect_uri`, `code_verifier`, `client_id`.
A missing field destructures to `undefined`, i.e. `none`. -/
structure TokenRequest where
  grant_type : Option String := none
  code : Option String := none
  redirect_uri : Option String := none
  code_verifier : Option String := none
  client_id : Option String := none
deriving DecidableEq, Repr

/-- One entry of the Express `authCodes` map: the record stored under an
issued authorization code by the callback handlers of
`src/src/routes/oauth.js`.  Fields copied out of the decoded state blob are
optional because the blob is client-supplied JSON. -/
structure ExpressCodeData where
  accessToken : String
  refreshToken : Option String := none
  codeChallenge : Option String := none
  codeChallengeMethod : Option String := none
  redirectUri : Option String := none
  clientId : Option String := none
  scope : Option String := none
  expiresAt : Int
  userId : String := ""
  email : Option String := none
deriving DecidableEq, Repr

/-- The Express `authCodes` store: a code-keyed map, modelled as an
association list with JavaScript `Map` get/set/delete semantics. -/
abbrev AuthStore := List (String × ExpressCodeData)

/-- `authCodes.get(c)`. -/
def getCode (st : AuthStore) (c : String) : Option ExpressCodeData :=
  (List.find? (fun p => p.1 == c) st).map (·.2)

/-- `authCodes.delete(c)`. -/
def delCode (st : AuthStore) (c : String) : AuthStore :=
  List.filter (fun p => p.1 != c) st

/-- `authCodes.set(c, d)` (later entries shadow earlier ones under
`getCode`, matching `Map.set` overwrite semantics). -/
def setCode (st : AuthStore) (c : String) (d : ExpressCodeData) : AuthStore :=
  (c, d) :: st

/-- Successful JSON body returned by the Express token endpoint. -/
structure TokenSuccess where
  access_token : String
  token_type : String
  expires_in : Int
  refresh_token : Option String
  scope : Option String
deriving DecidableEq, Repr

/-- Response of the Express token endpoint: either the 200 token JSON or a
4xx JSON `{error, error_description}` body. -/
inductive TokenReply
  | ok (body : TokenSuccess)
  | err (status : Nat) (error : String) (descr : String)
deriving DecidableEq, Repr

/-- The machine-readable OAuth error code of a reply, if it is an error. -/
def TokenReply.errCode : TokenReply → Option String
  | .ok _ => none
  | .err _ e _ => some e

/-- Whether a reply is the 200 success JSON. -/
def TokenReply.isOk : TokenReply → Bool
  | .ok _ => true
  | .err _ _ _ => false

/-- `config.oauth.tokenExpirySeconds` (src/src/config/env.js). -/
def tokenExpirySeconds : Int := 3600

/-- `config.oauth.codeExpirySeconds` (src/src/config/env.js), in seconds. -/
def codeExpirySeconds : Int := 600

/-- The `computedChallenge` assignment of the Express token endpoint
(lines 479-495): `S256` hashes the verifier, `plain` uses it verbatim, any
other recorded method is unsupported (`none`). -/
def computeChallenge (sha : String → String) (method : Option String)
    (verifier : String) : Option String :=
  if method = some "S256" then some (sha verifier)
  else if method = some "plain" then some verifier
  else none

/-- `POST /oauth/token` of `src/src/routes/oauth.js` (lines 418-538).
`sha` is the `crypto.createHash('sha256')....digest('base64url')` digest
function, `now` is `Date.now()`.  Returns the updated `authCodes` store and
the HTTP response. -/
def expressToken (sha : String → String) (now : Int) (st : AuthStore)
    (r : TokenRequest) : AuthStore × TokenReply :=
  if r.grant_type ≠ some "authorization_code" then
    (st, .err 400 "unsupported_grant_type"
      "Only authorization_code grant type is supported")
  else if jsFalsy r.code then
    (st, .err 400 "invalid_request" "Missing authorization code")
  else
    match getCode st (r.code.getD "") with
    | none =>
      (st, .err 400 "invalid_grant" "Authorization code is invalid or expired")
    | some codeData =>
      if codeData.expiresAt < now then
        (delCode st (r.code.getD ""), .err 400 "invalid_grant" "Authorization code expired")
      else if jsFalsy r.code_verifier then
        (st, .err 400 "invalid_request" "code_verifier is required for PKCE")
      else
        match computeChallenge sha codeData.codeChallengeMethod (r.code_verifier.getD "") with
        | none =>
          (delCode st (r.code.getD ""), .err 400 "invalid_grant"
            "Unsupported code_challenge_method")
        | some computedChallenge =>
          if some computedChallenge ≠ codeData.codeChallenge then
            (delCode st (r.code.getD ""), .err 400 "invalid_grant" "PKCE verification failed")
          else if r.redirect_uri ≠ codeData.redirectUri then
            (delCode st (r.code.getD ""), .err 400 "invalid_grant" "redirect_uri does not match")
          else
            (delCode st (r.code.getD ""), .ok
              { access_token := codeData.accessToken
                token_type := "Bearer"
                expires_in := tokenExpirySeconds
                refresh_token := codeData.refreshToken
                scope := codeData.scope })

/-- One entry of the `authorizationCodes` map of `src/server.js`
(line 317): all fields are taken from a server-side pending record and a
Supabase session, hence non-optional. -/
structure SrvCodeData where
  clientId : String
  userId : String
  codeChallenge : String
  redirectUri : String
  accessToken : String
  expiresAt : Int
deriving DecidableEq, Repr

/-- The `authorizationCodes` store of `src/server.js`. -/
abbrev SrvStore := List (String × SrvCodeData)

/-- `authorizationCodes.get(c)`. -/
def getSrvCode (st : SrvStore) (c : String) : Option SrvCodeData :=
  (List.find? (fun p => p.1 == c) st).map (·.2)

/-- `authorizationCodes.delete(c)`. -/
def delSrvCode (st : SrvStore) (c : String) : SrvStore :=
  List.filter (fun p => p.1 != c) st

/-- `authorizationCodes.set(c, d)`. -/
def setSrvCode (st : SrvStore) (c : String) (d : SrvCodeData) : SrvStore :=
  (c, d) :: st

/-- Response of the `src/server.js` token endpoint: the 200 token JSON
(`{access_token, token_type: 'Bearer', expires_in: 3600}`) or a JSON error
body. -/
inductive SrvTokenReply
  | ok (access_token : String)
  | err (status : Nat) (error : String) (descr : String)
deriving DecidableEq, Repr

/-- The machine-readable error code of a server token reply, if any. -/
def SrvTokenReply.errCode : SrvTokenReply → Option String
  | .ok _ => none
  | .err _ e _ => some e

/-- Whether a server token reply is the 200 success JSON. -/
def SrvTokenReply.isOk : SrvTokenReply → Bool
  | .ok _ => true
  | .err _ _ _ => false

/-- `POST /oauth/token` of `src/server.js` (lines 341-395). -/
def serverToken (sha : String → String) (now : Int) (st : SrvStore)
    (r : TokenRequest) : SrvStore × SrvTokenReply :=
  if r.grant_type ≠ some "authorization_code" then
    (st, .err 400 "unsupported_grant_type" "")
  else if jsFalsy r.code || jsFalsy r.redirect_uri || jsFalsy r.client_id
      || jsFalsy r.code_verifier then
    (st, .err 400 "invalid_request" "Missing required parameters")
  else
    match getSrvCode st (r.code.getD "") with
    | none => (st, .err 400 "invalid_grant" "Invalid or expired code")
    | some authCode =>
      if authCode.expiresAt < now then
        (delSrvCode st (r.code.getD ""), .err 400 "invalid_grant" "Code expired")
      else if some authCode.clientId ≠ r.client_id
          ∨ some authCode.redirectUri ≠ r.redirect_uri then
        (st, .err 400 "invalid_grant" "Client or redirect URI mismatch")
      else if sha (r.code_verifier.getD "") ≠ authCode.codeChallenge then
        (st, .err 400 "invalid_grant" "PKCE verification failed")
      else
        (delSrvCode st (r.code.getD ""), .ok authCode.accessToken)

/-- Query parameters of a GET to an authorize endpoint, as destructured
from `req.query`. -/
structure AuthorizeQuery where
  client_id : Option String := none
  redirect_uri : Option String := none
  response_type : Option String := none
  state : Option String := none
  scope : Option String := none
  code_challenge : Option String := none
  code_challenge_method : Option String := none
deriving DecidableEq, Repr

/-- The decoded OAuth state blob of the Express implementation: the JSON
object carried through Supabase inside the `state` query parameter.  On the
issuing side (`/oauth/authorize`) all fields are set, but a callback may be
handed any client-forged JSON, so every field is optional. -/
structure StateBlob where
  clientState : Option String := none
  redirectUri : Option String := none
  clientId : Option String := none
  scope : Option String := none
  codeChallenge : Option String := none
  codeChallengeMethod : Option String := none
  timestamp : Option Int := none
deriving DecidableEq, Repr

/-- `Date.now() - oauthState.timestamp > 10 * 60 * 1000` of the Express
callback handlers.  A blob without a numeric `timestamp` makes the age
`NaN`, and `NaN > x` is false in JavaScript, so such a blob is never
considered expired. -/
def blobExpired (now : Int) : Option Int → Bool
  | some t => decide (now - t > 10 * 60 * 1000)
  | none => false

/-- Response of an Express authorize endpoint: a JSON error body, or a
redirect into the upstream login flow carrying the encoded state blob. -/
inductive AuthorizeReply
  | reject (status : Nat) (error : String) (descr : String)
  | redirectUpstream (blob : StateBlob)
deriving DecidableEq, Repr

/-- Whether an authorize reply is a rejection (an error response, as
opposed to the redirect that continues the flow). -/
def AuthorizeReply.isReject : AuthorizeReply → Bool
  | .reject _ _ _ => true
  | .redirectUpstream _ => false

/-- `GET /oauth/authorize` of `src/src/routes/oauth.js` (lines 50-137), the
lenient variant: missing `redirect_uri`, `response_type`, `state` and PKCE
parameters are all replaced by self-chosen defaults.  `genState` and
`genChallenge` stand for the two `crypto.randomBytes(..).toString('base64url')`
calls; `now` is `Date.now()`. -/
def expressAuthorize (now : Int) (genState genChallenge : String)
    (q : AuthorizeQuery) : AuthorizeReply :=
  let redirectUri :=
    if jsFalsy q.redirect_uri then "http://localhost:3000/oauth/callback"
    else q.redirect_uri.getD ""
  let responseType := if jsFalsy q.response_type then "code" else q.response_type.getD ""
  let state := if jsFalsy q.state then genState else q.state.getD ""
  if responseType ≠ "code" then
    .reject 400 "unsupported_response_type" "Only \"code\" response type is supported"
  else
    let mkBlob (challenge : Option String) (method : Option String) : StateBlob :=
      { clientState := some state
        redirectUri := some redirectUri
        clientId := some (if jsFalsy q.client_id then "mcp-client" else q.client_id.getD "")
        scope := some (if jsFalsy q.scope then "openid" else q.scope.getD "")
        codeChallenge := challenge
        codeChallengeMethod := method
        timestamp := some now }
    if jsFalsy q.code_challenge then
      .redirectUpstream (mkBlob (some genChallenge) (some "plain"))
    else if q.code_challenge_method ≠ some "S256"
        ∧ q.code_challenge_method ≠ some "plain" then
      .reject 400 "invalid_request" "code_challenge_method must be S256 or plain"
    else
      .redirectUpstream (mkBlob q.code_challenge q.code_challenge_method)

/-- `GET /oauth/authorize` of the strict Express variant (the earlier
`routes/oauth.js`, kept in the repository): missing parameters and missing
or non-S256 PKCE are rejected with JSON error bodies before anything else
happens; nothing is ever written to a store by this endpoint. -/
def strictAuthorize (now : Int) (q : AuthorizeQuery) : AuthorizeReply :=
  if jsFalsy q.redirect_uri || jsFalsy q.response_type || jsFalsy q.state then
    .reject 400 "invalid_request"
      "Missing required OAuth parameters (redirect_uri, response_type, state)"
  else if q.response_type ≠ some "code" then
    .reject 400 "unsupported_response_type" "Only \"code\" response type is supported"
  else if jsFalsy q.code_challenge ∨ q.code_challenge_method ≠ some "S256" then
    .reject 400 "invalid_request"
      "PKCE is required. Must include code_challenge with S256 method"
  else
    .redirectUpstream
      { clientState := q.state
        redirectUri := q.redirect_uri
        clientId := some (if jsFalsy q.client_id then "mcp-client" else q.client_id.getD "")
        scope := some (if jsFalsy q.scope then "openid" else q.scope.getD "")
        codeChallenge := q.code_challenge
        codeChallengeMethod := q.code_challenge_method
        timestamp := some now }

/-- A registered client of `src/server.js` (`oauthClients` map). -/
structure SrvClient where
  clientId : String
  redirectUris : List String
deriving DecidableEq, Repr

/-- The `oauthClients` store of `src/server.js`. -/
abbrev ClientStore := List (String × SrvClient)

/-- `oauthClients.get(c)`. -/
def getClient (cs : ClientStore) (c : String) : Option SrvClient :=
  (List.find? (fun p => p.1 == c) cs).map (·.2)

/-- One entry of the `pendingAuthorizations` map of `src/server.js`
(line 247). -/
structure Pending where
  clientId : String
  redirectUri : String
  codeChallenge : String
  codeChallengeMethod : String
  mcpState : Option String
  createdAt : Int
deriving DecidableEq, Repr

/-- The `pendingAuthorizations` store of `src/server.js`. -/
abbrev PendStore := List (String × Pending)

/-- `pendingAuthorizations.get(s)`. -/
def getPending (ps : PendStore) (s : String) : Option Pending :=
  (List.find? (fun p => p.1 == s) ps).map (·.2)

/-- `pendingAuthorizations.delete(s)`. -/
def delPending (ps : PendStore) (s : String) : PendStore :=
  List.filter (fun p => p.1 != s) ps

/-- `pendingAuthorizations.set(s, p)`. -/
def setPending (ps : PendStore) (s : String) (p : Pending) : PendStore :=
  (s, p) :: ps

/-- Response of an endpoint of `src/server.js` that answers either with a
redirect or with `res.status(..).send(text)` / `res.status(..).json(..)`.
`error` is the machine-readable OAuth error code of a JSON error body, and
is `none` when the body is plain text (`res.send`) and thus carries no such
code. -/
inductive SrvReply
  | deny (status : Nat) (error : Option String) (body : String)
  | redirectUpstream (internalState : String)
  | redirectClient (redirectUri : String) (code : String) (mcpState : Option String)
deriving DecidableEq, Repr

/-- `GET /oauth/authorize` of `src/server.js` (lines 211-276).
`genInternalState` stands for `crypto.randomUUID()`.  Returns the updated
`pendingAuthorizations` store and the response. -/
def serverAuthorize (now : Int) (genInternalState : String)
    (clients : ClientStore) (pend : PendStore) (q : AuthorizeQuery) :
    PendStore × SrvReply :=
  if q.response_type ≠ some "code" then
    (pend, .deny 400 none "Only authorization code flow is supported")
  else if jsFalsy q.client_id || jsFalsy q.redirect_uri then
    (pend, .deny 400 none "Missing required parameters")
  else if jsFalsy q.code_challenge ∨ q.code_challenge_method ≠ some "S256" then
    (pend, .deny 400 none "PKCE with S256 is required")
  else
    match getClient clients (q.client_id.getD "") with
    | none => (pend, .deny 400 none "Invalid client_id")
    | some client =>
      if ¬ client.redirectUris.contains (q.redirect_uri.getD "") then
        (pend, .deny 400 none "Invalid redirect_uri")
      else
        (setPending pend genInternalState
          { clientId := q.client_id.getD ""
            redirectUri := q.redirect_uri.getD ""
            codeChallenge := q.code_challenge.getD ""
            codeChallengeMethod := q.code_challenge_method.getD ""
            mcpState := q.state
            createdAt := now },
         .redirectUpstream genInternalState)

/-- A Supabase session as obtained by `exchangeCodeForSession` in
`src/server.js`'s callback: the access token and the authenticated user. -/
structure SrvSession where
  accessToken : String
  userId : String
deriving DecidableEq, Repr

/-- `GET /oauth/callback` of `src/server.js` (lines 279-338).
`upstream` is the outcome of `supabase.auth.exchangeCodeForSession`
(`none` = error or missing session), `genCode` stands for
`crypto.randomUUID()`, and `urlOk u` tells whether `new URL(u)` succeeds
(a failure is caught and answered with a 500).  Note that the handler
performs no expiry check on the pending record: `createdAt` is stored but
never read. -/
def serverCallback (urlOk : String → Bool) (now : Int) (genCode : String)
    (upstream : Option SrvSession) (pend : PendStore) (codes : SrvStore)
    (supabaseCode internalState authError : Option String) :
    PendStore × SrvStore × SrvReply :=
  if ¬ jsFalsy authError then
    (pend, codes, .deny 400 none "Authentication failed")
  else if jsFalsy supabaseCode then
    (pend, codes, .deny 400 none "Missing authorization code from Supabase")
  else if jsFalsy internalState then
    (pend, codes, .deny 400 none "Missing state parameter")
  else
    let key := internalState.getD ""
    match getPending pend key with
    | none => (pend, codes, .deny 400 none "Invalid or expired authorization request")
    | some pending =>
      let pend' := delPending pend key
      match upstream with
      | none => (pend', codes, .deny 500 none "Failed to exchange code for session")
      | some sess =>
        let codes' := setSrvCode codes genCode
          { clientId := pending.clientId
            userId := sess.userId
            codeChallenge := pending.codeChallenge
            redirectUri := pending.redirectUri
            accessToken := sess.accessToken
            expiresAt := now + 60000 }
        if urlOk pending.redirectUri then
          (pend', codes', .redirectClient pending.redirectUri genCode pending.mcpState)
        else
          (pend', codes', .deny 500 none "Callback processing failed")

/-- The Supabase user resolved by the Express callback handlers
(`supabase.auth.getUser` / `sessionData.user`). -/
structure UpstreamUser where
  id : String
  email : Option String
deriving DecidableEq, Repr

/-- Response of an Express callback handler.  `errJson` is a JSON
`{error, error_description}` body; `errHtml` is an HTML error page (which
carries no machine-readable error code); `okRedirect` delivers the freshly
minted code and the blob's client state towards the blob's redirect URI
(as a JSON `redirect_url` for the POST handler and as a self-redirecting
success page for the GET handler). -/
inductive ExpressCbReply
  | errJson (status : Nat) (error : String) (descr : String)
  | errHtml (status : Nat)
  | okRedirect (redirectUri : String) (code : String) (clientState : Option String)
deriving DecidableEq, Repr

/-- Whether an Express callback reply completed the flow by delivering an
authorization code. -/
def ExpressCbReply.issuedCode : ExpressCbReply → Bool
  | .okRedirect _ _ _ => true
  | _ => false

/-- `POST /oauth/callback` of `src/src/routes/oauth.js` (lines 143-233).
`stateRaw` is the raw `state` body field and `parsed` the outcome of
base64url-decoding it and `JSON.parse` (`none` = parse failure, which the
handler's catch turns into a 500 `server_error` JSON).  `upstream` is the
outcome of `supabase.auth.getUser(access_token)`.  The new code is stored
BEFORE the redirect URL is built, so a bad `redirectUri` in the blob still
leaves the code in the store. -/
def expressCallbackPost (urlOk : String → Bool) (now : Int) (genCode : String)
    (upstream : Option UpstreamUser) (st : AuthStore)
    (access_token refresh_token stateRaw : Option String)
    (parsed : Option StateBlob) : AuthStore × ExpressCbReply :=
  if jsFalsy stateRaw || jsFalsy access_token then
    (st, .errJson 400 "invalid_request" "Missing state or access_token")
  else
    match parsed with
    | none => (st, .errJson 500 "server_error" "JSON parse failure")
    | some blob =>
      if blobExpired now blob.timestamp then
        (st, .errJson 500 "server_error" "OAuth state expired")
      else
        match upstream with
        | none => (st, .errJson 500 "server_error" "Failed to get user information")
        | some user =>
          let st' := setCode st genCode
            { accessToken := access_token.getD ""
              refreshToken := refresh_token
              codeChallenge := blob.codeChallenge
              codeChallengeMethod := blob.codeChallengeMethod
              redirectUri := blob.redirectUri
              clientId := blob.clientId
              scope := blob.scope
              expiresAt := now + codeExpirySeconds * 1000
              userId := user.id
              email := user.email }
          match blob.redirectUri with
          | some u =>
            if urlOk u then (st', .okRedirect u genCode blob.clientState)
            else (st', .errJson 500 "server_error" "Invalid redirect URL")
          | none => (st', .errJson 500 "server_error" "Invalid redirect URL")

/-- The Supabase session obtained by the Express GET callback
(`exchangeCodeForSession`): token pair plus the authenticated user. -/
structure ExpressSession where
  accessToken : String
  refreshToken : Option String
  user : UpstreamUser
deriving DecidableEq, Repr

/-- `GET /oauth/callback` of `src/src/routes/oauth.js` (lines 239-412).
Like the POST handler, but the upstream identity comes from exchanging the
Supabase `code` query parameter for a session, errors render HTML pages,
and success renders a page that then redirects to the blob's redirect URI
with the fresh code and the blob's client state. -/
def expressCallbackGet (urlOk : String → Bool) (now : Int) (genCode : String)
    (upstream : Option ExpressSession) (st : AuthStore)
    (stateRaw supabaseCode authError : Option String)
    (parsed : Option StateBlob) : AuthStore × ExpressCbReply :=
  if ¬ jsFalsy authError then
    (st, .errHtml 400)
  else if jsFalsy stateRaw || jsFalsy supabaseCode then
    (st, .errJson 400 "invalid_request" "Missing state or code parameter")
  else
    match parsed with
    | none => (st, .errHtml 500)
    | some blob =>
      if blobExpired now blob.timestamp then
        (st, .errHtml 500)
      else
        match upstream with
        | none => (st, .errHtml 500)
        | some sess =>
          let st' := setCode st genCode
            { accessToken := sess.accessToken
              refreshToken := sess.refreshToken
              codeChallenge := blob.codeChallenge
              codeChallengeMethod := blob.codeChallengeMethod
              redirectUri := blob.redirectUri
              clientId := blob.clientId
              scope := blob.scope
              expiresAt := now + codeExpirySeconds * 1000
              userId := sess.user.id
              email := sess.user.email }
          match blob.redirectUri with
          | some u =>
            if urlOk u then (st', .okRedirect u genCode blob.clientState)
            else (st', .errHtml 500)
          | none => (st', .errHtml 500)

/-- The periodic cleanup of the Express `authCodes` map
(`src/src/routes/oauth.js` lines 35-43): every entry with
`expiresAt < now` is deleted. -/
def expressCleanup (now : Int) (st : AuthStore) : AuthStore :=
  List.filter (fun p => ¬ p.2.expiresAt < now) st

/-- The periodic cleanup of `src/server.js` (lines 111-118): it sweeps the
`authorizationCodes` map only — `pendingAuthorizations` is not swept
anywhere in the file. -/
def serverCleanup (now : Int) (codes : SrvStore) : SrvStore :=
  List.filter (fun p => ¬ p.2.expiresAt < now) codes

/-- The Vercel `stateStore` of `src/api/oauth/authorize.js`: entries keyed
by the generated `authState`, holding the original request parameters. -/
abbrev VercelStateStore := List (String × StateBlob)

/-- Response of the Vercel authorize handler. -/
inductive VercelAuthReply
  | reject (status : Nat) (error : String) (descr : String)
  | redirectUpstream (authState : String)
deriving DecidableEq, Repr

/-- `handler` of `src/api/oauth/authorize.js` (GET): validates
`redirect_uri`/`response_type`/`state` presence and `response_type`, then
writes one `stateStore` entry and redirects to Supabase.  `genAuthState`
stands for `crypto.randomBytes(32).toString('hex')`. -/
def vercelAuthorize (now : Int) (genAuthState : String)
    (store : VercelStateStore) (q : AuthorizeQuery) :
    VercelStateStore × VercelAuthReply :=
  if jsFalsy q.redirect_uri || jsFalsy q.response_type || jsFalsy q.state then
    (store, .reject 400 "invalid_request" "Missing required OAuth parameters")
  else if q.response_type ≠ some "code" then
    (store, .reject 400 "unsupported_response_type"
      "Only \"code\" response type is supported")
  else
    ((genAuthState,
      { clientState := q.state
        redirectUri := q.redirect_uri
        clientId := q.client_id
        scope := q.scope
        codeChallenge := q.code_challenge
        codeChallengeMethod := q.code_challenge_method
        timestamp := some now }) :: store,
     .redirectUpstream genAuthState)

/-! ### Store lemmas -/

@[simp] lemma jsFalsy_none : jsFalsy none = true := rfl

@[simp] lemma jsFalsy_some (s : String) : jsFalsy (some s) = (s == "") := rfl

lemma getCode_delCode_self (st : AuthStore) (c : String) :
    getCode (delCode st c) c = none := by
  induction st with
  | nil => rfl
  | cons p t ih =>
    by_cases h : p.1 = c
    · simp only [delCode, List.filter_cons, h]
      simpa using ih
    · simpa [delCode, getCode, List.find?, h] using ih

lemma getSrvCode_delSrvCode_self (st : SrvStore) (c : String) :
    getSrvCode (delSrvCode st c) c = none := by
  induction st with
  | nil => rfl
  | cons p t ih =>
    by_cases h : p.1 = c
    · simp only [delSrvCode, List.filter_cons, h]
      simpa using ih
    · simpa [delSrvCode, getSrvCode, List.find?, h] using ih

lemma getPending_delPending_self (ps : PendStore) (s : String) :
    getPending (delPending ps s) s = none := by
  induction ps with
  | nil => rfl
  | cons p t ih =>
    by_cases h : p.1 = s
    · simp only [delPending, List.filter_cons, h]
      simpa using ih
    · simpa [delPending, getPending, List.find?, h] using ih

/-! ### Inversion lemmas for successful token exchanges -/

/-- A successful Express token exchange implies: the request was a
well-formed `authorization_code` exchange, the code was present and found,
and the returned store is the old one with that code deleted. -/
lemma expressToken_ok_inv (sha : String → String) (now : Int) (st : AuthStore)
    (r : TokenRequest) (st' : AuthStore) (body : TokenSuccess)
    (h : expressToken sha now st r = (st', .ok body)) :
    jsFalsy r.code = false ∧ st' = delCode st (r.code.getD "") := by
  unfold expressToken at h
  split at h
  · simp_all
  · split at h
    · simp_all
    · split at h
      · simp_all
      · split at h
        · simp_all
        · split at h
          · simp_all
          · split at h
            · simp_all
            · split at h
              · simp_all
              · split at h
                · simp_all
                · simp_all

/-- A successful `src/server.js` token exchange implies the code was
present and the returned store is the old one with that code deleted. -/
lemma serverToken_ok_inv (sha : String → String) (now : Int) (st : SrvStore)
    (r : TokenRequest) (st' : SrvStore) (tok : String)
    (h : serverToken sha now st r = (st', .ok tok)) :
    jsFalsy r.code = false ∧ st' = delSrvCode st (r.code.getD "") := by
  unfold serverToken at h
  split at h
  · simp_all
  · split at h
    · simp_all
    · split at h
      · simp_all
      · split at h
        · simp_all
        · split at h
          · simp_all
          · split at h
            · simp_all
            · simp_all

/-- Exchanging a code that is absent from the store, with a well-formed
request, answers `invalid_grant` and leaves the store unchanged. -/
lemma expressToken_absent (sha : String → String) (now : Int) (st : AuthStore)
    (r : TokenRequest) (c : String)
    (hg : r.grant_type = some "authorization_code") (hc : r.code = some c)
    (hne : c ≠ "") (habs : getCode st c = none) :
    expressToken sha now st r
      = (st, .err 400 "invalid_grant" "Authorization code is invalid or expired") := by
  unfold expressToken
  simp [hg, hc, hne, habs]

/-- `src/server.js` version of `expressToken_absent`: the request must also
carry non-empty `redirect_uri`, `client_id` and `code_verifier` to get past
the presence check. -/
lemma serverToken_absent (sha : String → String) (now : Int) (st : SrvStore)
    (r : TokenRequest) (c : String)
    (hg : r.grant_type = some "authorization_code") (hc : r.code = some c)
    (hne : c ≠ "") (hru : jsFalsy r.redirect_uri = false)
    (hci : jsFalsy r.client_id = false) (hcv : jsFalsy r.code_verifier = false)
    (habs : getSrvCode st c = none) :
    serverToken sha now st r = (st, .err 400 "invalid_grant" "Invalid or expired code") := by
  unfold serverToken
  simp [hg, hc, hne, hru, hci, hcv, habs]

/-! ### C1: single-use authorization codes at the token endpoints -/

/-- C1.  For every issued authorization code, exchanging it at the token
endpoint succeeds at most once: a successful exchange returns the store
with the stored code deleted (deletion is part of the same atomic
transition that produces the token response, so it happens whether or not
the caller ever receives that response), and a second exchange presenting
the same code — at any later time, with any parameters forming a
well-formed exchange request — fails with `invalid_grant`.  Proved for
both the Express token endpoint (`src/src/routes/oauth.js`) and the
`src/server.js` token endpoint. -/
theorem code_single_use :
    (∀ (sha : String → String) (now : Int) (st : AuthStore) (r : TokenRequest)
        (c : String) (st' : AuthStore) (body : TokenSuccess) (now2 : Int)
        (r2 : TokenRequest),
      r.code = some c →
      expressToken sha now st r = (st', .ok body) →
      r2.grant_type = some "authorization_code" → r2.code = some c →
      getCode st' c = none ∧
        expressToken sha now2 st' r2
          = (st', .err 400 "invalid_grant" "Authorization code is invalid or expired")) ∧
    (∀ (sha : String → String) (now : Int) (st : SrvStore) (r : TokenRequest)
        (c : String) (st' : SrvStore) (tok : String) (now2 : Int)
        (r2 : TokenRequest),
      r.code = some c →
      serverToken sha now st r = (st', .ok tok) →
      r2.grant_type = some "authorization_code" → r2.code = some c →
      jsFalsy r2.redirect_uri = false → jsFalsy r2.client_id = false →
      jsFalsy r2.code_verifier = false →
      getSrvCode st' c = none ∧
        serverToken sha now2 st' r2
          = (st', .err 400 "invalid_grant" "Invalid or expired code")) := by
  constructor
  · intro sha now st r c st' body now2 r2 hc hsucc hg2 hc2
    obtain ⟨hfalsy, hst⟩ := expressToken_ok_inv sha now st r st' body hsucc
    rw [hc] at hfalsy
    simp only [jsFalsy_some, beq_eq_false_iff_ne, ne_eq] at hfalsy
    have habs : getCode st' c = none := by
      rw [hst, hc]
      simpa using getCode_delCode_self st c
    exact ⟨habs, expressToken_absent sha now2 st' r2 c hg2 hc2 hfalsy habs⟩
  · intro sha now st r c st' tok now2 r2 hc hsucc hg2 hc2 hru hci hcv
    obtain ⟨hfalsy, hst⟩ := serverToken_ok_inv sha now st r st' tok hsucc
    rw [hc] at hfalsy
    simp only [jsFalsy_some, beq_eq_false_iff_ne, ne_eq] at hfalsy
    have habs : getSrvCode st' c = none := by
      rw [hst, hc]
      simpa using getSrvCode_delSrvCode_self st c
    exact ⟨habs, serverToken_absent sha now2 st' r2 c hg2 hc2 hfalsy hru hci hcv habs⟩

/-- A sample issued code record for concrete runs of the Express token
endpoint. -/
def sampleExpressData : ExpressCodeData :=
  { accessToken := "sb-access"
    refreshToken := some "sb-refresh"
    codeChallenge := some "digest-of-verifier-xyz"
    codeChallengeMethod := some "S256"
    redirectUri := some "https://client.example/cb"
    clientId := some "mcp-client"
    scope := some "openid"
    expiresAt := 1000000
    userId := "user-1"
    email := some "u1@example.com" }

/-- A digest function for concrete runs: tags its input, so unequal
verifiers keep unequal digests. -/
def sampleSha (s : String) : String := "digest-of-" ++ s

/-- A well-formed exchange request for `sampleExpressData` under
`sampleSha`. -/
def sampleExpressRequest : TokenRequest :=
  { grant_type := some "authorization_code"
    code := some "codeA"
    redirect_uri := some "https://client.example/cb"
    code_verifier := some "verifier-xyz"
    client_id := some "mcp-client" }

/-- A sample issued code record for concrete runs of the `src/server.js`
token endpoint. -/
def sampleSrvData : SrvCodeData :=
  { clientId := "client-1"
    userId := "user-1"
    codeChallenge := "digest-of-verifier-xyz"
    redirectUri := "https://client.example/cb"
    accessToken := "sb-access"
    expiresAt := 1000000 }

/-- A well-formed exchange request for `sampleSrvData` under `sampleSha`. -/
def sampleSrvRequest : TokenRequest :=
  { grant_type := some "authorization_code"
    code := some "codeB"
    redirect_uri := some "https://client.example/cb"
    code_verifier := some "verifier-xyz"
    client_id := some "client-1" }

/-- The token body produced by a successful exchange of
`sampleExpressRequest`. -/
def sampleTokenBody : TokenSuccess :=
  { access_token := "sb-access"
    token_type := "Bearer"
    expires_in := 3600
    refresh_token := some "sb-refresh"
    scope := some "openid" }

/-- Witness for C1: concrete successful exchanges on both endpoints, then
the theorem applied to them. -/
theorem code_single_use_witness :
    (expressToken sampleSha 5 [("codeA", sampleExpressData)] sampleExpressRequest
        = ([], .ok sampleTokenBody) ∧
      getCode ([] : AuthStore) "codeA" = none ∧
      expressToken sampleSha 6 [] sampleExpressRequest
        = ([], .err 400 "invalid_grant" "Authorization code is invalid or expired")) ∧
    (serverToken sampleSha 5 [("codeB", sampleSrvData)] sampleSrvRequest
        = ([], .ok "sb-access") ∧
      getSrvCode ([] : SrvStore) "codeB" = none ∧
      serverToken sampleSha 6 [] sampleSrvRequest
        = ([], .err 400 "invalid_grant" "Invalid or expired code")) := by
  have h1 := code_single_use.1 sampleSha 5 [("codeA", sampleExpressData)]
    sampleExpressRequest "codeA" [] sampleTokenBody 6
    sampleExpressRequest rfl (by decide) rfl rfl
  have h2 := code_single_use.2 sampleSha 5 [("codeB", sampleSrvData)]
    sampleSrvRequest "codeB" [] "sb-access" 6 sampleSrvRequest rfl (by decide)
    rfl rfl (by decide) (by decide) (by decide)
  exact ⟨⟨by decide, h1⟩, ⟨by decide, h2⟩⟩

/-! ### C2: PKCE binding under the S256 method -/

/-- C2.  For a code stored with PKCE challenge `C` under method `S256`
(and otherwise valid: unexpired, matching `redirect_uri`/`client_id`,
well-formed request), token exchange succeeds iff the submitted non-empty
`code_verifier` `V` satisfies `base64url(SHA256(V)) = C` (the digest is the
uninterpreted parameter `sha`); any other verifier fails with
`invalid_grant`, and an omitted (or JavaScript-falsy, i.e. empty) verifier
also fails.  Proved for the Express token endpoint and the `src/server.js`
token endpoint. -/
theorem pkce_s256_binding :
    (∀ (sha : String → String) (now : Int) (st : AuthStore) (r : TokenRequest)
        (c : String) (d : ExpressCodeData) (V : String),
      getCode st c = some d →
      d.codeChallengeMethod = some "S256" →
      ¬ d.expiresAt < now →
      r.grant_type = some "authorization_code" →
      r.code = some c → c ≠ "" →
      r.redirect_uri = d.redirectUri →
      r.code_verifier = some V → V ≠ "" →
      (((expressToken sha now st r).2.isOk = true) ↔ some (sha V) = d.codeChallenge) ∧
        (some (sha V) ≠ d.codeChallenge →
          (expressToken sha now st r).2
            = .err 400 "invalid_grant" "PKCE verification failed")) ∧
    (∀ (sha : String → String) (now : Int) (st : AuthStore) (r : TokenRequest)
        (c : String) (d : ExpressCodeData),
      getCode st c = some d →
      ¬ d.expiresAt < now →
      r.grant_type = some "authorization_code" →
      r.code = some c → c ≠ "" →
      jsFalsy r.code_verifier = true →
      (expressToken sha now st r).2
        = .err 400 "invalid_request" "code_verifier is required for PKCE") ∧
    (∀ (sha : String → String) (now : Int) (st : SrvStore) (r : TokenRequest)
        (c : String) (a : SrvCodeData) (V : String),
      getSrvCode st c = some a →
      ¬ a.expiresAt < now →
      r.grant_type = some "authorization_code" →
      r.code = some c → c ≠ "" →
      r.client_id = some a.clientId → a.clientId ≠ "" →
      r.redirect_uri = some a.redirectUri → a.redirectUri ≠ "" →
      r.code_verifier = some V → V ≠ "" →
      (((serverToken sha now st r).2.isOk = true) ↔ sha V = a.codeChallenge) ∧
        (sha V ≠ a.codeChallenge →
          (serverToken sha now st r).2
            = .err 400 "invalid_grant" "PKCE verification failed")) ∧
    (∀ (sha : String → String) (now : Int) (st : SrvStore) (r : TokenRequest)
        (c : String),
      r.grant_type = some "authorization_code" →
      r.code = some c → c ≠ "" →
      jsFalsy r.redirect_uri = false → jsFalsy r.client_id = false →
      jsFalsy r.code_verifier = true →
      (serverToken sha now st r).2
        = .err 400 "invalid_request" "Missing required parameters") := by
  refine ⟨?_, ?_, ?_, ?_⟩
  · intro sha now st r c d V hd hm hexp hg hc hne hru hv hvne
    unfold expressToken
    rw [hc]
    simp only [jsFalsy_some, Option.getD_some, hg, hne, hd]
    by_cases heq : some (sha V) = d.codeChallenge
    · simp [hexp, hne, hv, hvne, computeChallenge, hm, ← heq, hru, TokenReply.isOk]
    · simp [hexp, hne, hv, hvne, computeChallenge, hm, heq, TokenReply.isOk]
  · intro sha now st r c d hd hexp hg hc hne hv
    unfold expressToken
    rw [hc]
    simp [hg, hne, hd, hexp, hv]
  · intro sha now st r c a V ha hexp hg hc hne hci hcine hru hrune hv hvne
    unfold serverToken
    rw [hc]
    simp only [jsFalsy_some, Option.getD_some, hg, hne, ha, hci, hru, hv]
    by_cases heq : sha V = a.codeChallenge
    · simp [hexp, hne, hcine, hrune, hvne, heq, SrvTokenReply.isOk]
    · simp [hexp, hne, hcine, hrune, hvne, heq, SrvTokenReply.isOk]
  · intro sha now st r c hg hc hne hru hci hv
    unfold serverToken
    rw [hc]
    simp [hg, hne, hru, hci, hv]

/-- Witness for C2: concrete instances of all four conjuncts — a good
verifier succeeds, a wrong verifier gets `invalid_grant`, an omitted
verifier gets `invalid_request`, on both endpoints. -/
theorem pkce_s256_binding_witness :
    ((((expressToken sampleSha 5 [("codeA", sampleExpressData)]
          sampleExpressRequest).2.isOk = true) ↔
        some (sampleSha "verifier-xyz") = sampleExpressData.codeChallenge) ∧
      (expressToken sampleSha 5 [("codeA", sampleExpressData)]
          { sampleExpressRequest with code_verifier := some "wrong" }).2
        = .err 400 "invalid_grant" "PKCE verification failed") ∧
    ((expressToken sampleSha 5 [("codeA", sampleExpressData)]
        { sampleExpressRequest with code_verifier := none }).2
      = .err 400 "invalid_request" "code_verifier is required for PKCE") ∧
    ((((serverToken sampleSha 5 [("codeB", sampleSrvData)]
          sampleSrvRequest).2.isOk = true) ↔
        sampleSha "verifier-xyz" = sampleSrvData.codeChallenge) ∧
      (serverToken sampleSha 5 [("codeB", sampleSrvData)]
        { sampleSrvRequest with code_verifier := none }).2
        = .err 400 "invalid_request" "Missing required parameters") := by
  refine ⟨⟨?_, ?_⟩, ?_, ?_, ?_⟩
  · exact (pkce_s256_binding.1 sampleSha 5 [("codeA", sampleExpressData)]
      sampleExpressRequest "codeA" sampleExpressData "verifier-xyz" (by decide)
      rfl (by decide) rfl rfl (by decide) rfl rfl (by decide)).1
  · exact (pkce_s256_binding.1 sampleSha 5 [("codeA", sampleExpressData)]
      { sampleExpressRequest with code_verifier := some "wrong" } "codeA"
      sampleExpressData "wrong" (by decide) rfl (by decide) rfl rfl (by decide)
      rfl rfl (by decide)).2 (by decide)
  · exact pkce_s256_binding.2.1 sampleSha 5 [("codeA", sampleExpressData)]
      { sampleExpressRequest with code_verifier := none } "codeA"
      sampleExpressData (by decide) (by decide) rfl rfl (by decide) rfl
  · exact (pkce_s256_binding.2.2.1 sampleSha 5 [("codeB", sampleSrvData)]
      sampleSrvRequest "codeB" sampleSrvData "verifier-xyz" (by decide)
      (by decide) rfl rfl (by decide) rfl (by decide) rfl (by decide) rfl
      (by decide)).1
  · exact pkce_s256_binding.2.2.2 sampleSha 5 [("codeB", sampleSrvData)]
      { sampleSrvRequest with code_verifier := none } "codeB" rfl rfl
      (by decide) (by decide) (by decide) rfl

/-! ### C5: redirect_uri binding at token exchange -/

/-- C5.  Token exchange fails with `invalid_grant` whenever the
`redirect_uri` presented at exchange time is not byte-identical (string
equality — so a difference of only a trailing slash or scheme also counts)
to the `redirect_uri` recorded at authorization time, for every stored,
unexpired code and every differing `redirect_uri`, provided the request is
otherwise a well-formed exchange attempt (correct `grant_type`, code
present, verifier present — failures of those earlier checks short-circuit
with their own errors first).  Proved for both token endpoints; on the
Express endpoint every validation that can fail after that point answers
`invalid_grant`, so the conclusion holds whatever the verifier is. -/
theorem redirect_uri_binding :
    (∀ (sha : String → String) (now : Int) (st : AuthStore) (r : TokenRequest)
        (c : String) (d : ExpressCodeData),
      getCode st c = some d →
      ¬ d.expiresAt < now →
      r.grant_type = some "authorization_code" →
      r.code = some c → c ≠ "" →
      jsFalsy r.code_verifier = false →
      r.redirect_uri ≠ d.redirectUri →
      (expressToken sha now st r).2.errCode = some "invalid_grant" ∧
        (expressToken sha now st r).2.isOk = false) ∧
    (∀ (sha : String → String) (now : Int) (st : SrvStore) (r : TokenRequest)
        (c : String) (a : SrvCodeData),
      getSrvCode st c = some a →
      ¬ a.expiresAt < now →
      r.grant_type = some "authorization_code" →
      r.code = some c → c ≠ "" →
      jsFalsy r.redirect_uri = false → jsFalsy r.client_id = false →
      jsFalsy r.code_verifier = false →
      r.redirect_uri ≠ some a.redirectUri →
      (serverToken sha now st r).2
        = .err 400 "invalid_grant" "Client or redirect URI mismatch") := by
  constructor
  · intro sha now st r c d hd hexp hg hc hne hv hru
    unfold expressToken
    rw [hc]
    simp only [jsFalsy_some, Option.getD_some, hg, hne, hd]
    rcases hcc : computeChallenge sha d.codeChallengeMethod (r.code_verifier.getD "") with _ | computed
    · simp [hexp, hv, hne, hcc, TokenReply.errCode, TokenReply.isOk]
    · by_cases heq : some computed = d.codeChallenge
      · simp [hexp, hv, hne, hcc, heq, hru, TokenReply.errCode, TokenReply.isOk]
      · simp [hexp, hv, hne, hcc, heq, TokenReply.errCode, TokenReply.isOk]
  · intro sha now st r c a ha hexp hg hc hne hru hci hv hmis
    unfold serverToken
    rw [hc]
    have hcond : ¬ some a.redirectUri = r.redirect_uri := fun h => hmis h.symm
    simp [hg, hne, ha, hexp, hru, hci, hv, hcond]

/-- Witness for C5: a trailing slash added to the recorded redirect URI
makes both endpoints answer `invalid_grant`. -/
theorem redirect_uri_binding_witness :
    ((expressToken sampleSha 5 [("codeA", sampleExpressData)]
        { sampleExpressRequest with
            redirect_uri := some "https://client.example/cb/" }).2.errCode
        = some "invalid_grant" ∧
      (expressToken sampleSha 5 [("codeA", sampleExpressData)]
        { sampleExpressRequest with
            redirect_uri := some "https://client.example/cb/" }).2.isOk = false) ∧
    (serverToken sampleSha 5 [("codeB", sampleSrvData)]
        { sampleSrvRequest with
            redirect_uri := some "http://client.example/cb" }).2
      = .err 400 "invalid_grant" "Client or redirect URI mismatch" := by
  constructor
  · exact redirect_uri_binding.1 sampleSha 5 [("codeA", sampleExpressData)]
      { sampleExpressRequest with redirect_uri := some "https://client.example/cb/" }
      "codeA" sampleExpressData (by decide) (by decide) rfl rfl (by decide)
      (by decide) (by decide)
  · exact redirect_uri_binding.2 sampleSha 5 [("codeB", sampleSrvData)]
      { sampleSrvRequest with redirect_uri := some "http://client.example/cb" }
      "codeB" sampleSrvData (by decide) (by decide) rfl rfl (by decide)
      (by decide) (by decide) (by decide) (by decide)

/-! ### C9: post-lookup validation failures consume the code (Express) -/

/-- Once the Express token endpoint has found an unexpired code and a
non-falsy verifier, every remaining outcome — unsupported stored challenge
method, PKCE mismatch, redirect mismatch, or success — returns the store
with the code deleted. -/
lemma expressToken_past_verifier_deletes (sha : String → String) (now : Int)
    (st : AuthStore) (r : TokenRequest) (c : String) (d : ExpressCodeData)
    (hd : getCode st c = some d) (hexp : ¬ d.expiresAt < now)
    (hg : r.grant_type = some "authorization_code") (hc : r.code = some c)
    (hne : c ≠ "") (hv : jsFalsy r.code_verifier = false) :
    (expressToken sha now st r).1 = delCode st c ∧
      ((expressToken sha now st r).2.isOk = false →
        (expressToken sha now st r).2.errCode = some "invalid_grant") := by
  unfold expressToken
  rw [hc]
  simp only [jsFalsy_some, Option.getD_some, hg, hne, hd]
  rcases hcc : computeChallenge sha d.codeChallengeMethod (r.code_verifier.getD "") with _ | computed
  · simp [hexp, hv, hne, hcc, TokenReply.errCode, TokenReply.isOk]
  · by_cases heq : some computed = d.codeChallenge
    · by_cases hru : r.redirect_uri = d.redirectUri
      · simp [hexp, hv, hne, hcc, heq, hru, TokenReply.errCode, TokenReply.isOk]
      · simp [hexp, hv, hne, hcc, heq, hru, TokenReply.errCode, TokenReply.isOk]
    · simp [hexp, hv, hne, hcc, heq, TokenReply.errCode, TokenReply.isOk]

/-- C9.  In the Express token endpoint, every validation failure occurring
after a successful code lookup of an unexpired code with a verifier
present — an unsupported stored challenge method, a PKCE verifier
mismatch, or a redirect_uri mismatch — answers `invalid_grant` and leaves
the store with the `IssuedAuthorizationCode` deleted (as does success);
consequently any subsequent exchange of the same code, with fully correct
parameters or otherwise well-formed ones, fails with `invalid_grant`: a
caller gets exactly one verification attempt per code. -/
theorem post_lookup_failure_consumes_code (sha : String → String) (now : Int)
    (st : AuthStore) (r : TokenRequest) (c : String) (d : ExpressCodeData)
    (now2 : Int) (r2 : TokenRequest)
    (hd : getCode st c = some d) (hexp : ¬ d.expiresAt < now)
    (hg : r.grant_type = some "authorization_code") (hc : r.code = some c)
    (hne : c ≠ "") (hv : jsFalsy r.code_verifier = false)
    (hg2 : r2.grant_type = some "authorization_code") (hc2 : r2.code = some c) :
    getCode (expressToken sha now st r).1 c = none ∧
      ((expressToken sha now st r).2.isOk = false →
        (expressToken sha now st r).2.errCode = some "invalid_grant") ∧
      expressToken sha now2 (expressToken sha now st r).1 r2
        = ((expressToken sha now st r).1,
           .err 400 "invalid_grant" "Authorization code is invalid or expired") := by
  obtain ⟨hst, herr⟩ :=
    expressToken_past_verifier_deletes sha now st r c d hd hexp hg hc hne hv
  have habs : getCode (expressToken sha now st r).1 c = none := by
    rw [hst]; exact getCode_delCode_self st c
  exact ⟨habs, herr,
    expressToken_absent sha now2 (expressToken sha now st r).1 r2 c hg2 hc2 hne habs⟩

/-- Witness for C9: a PKCE-mismatch failure on a concrete store deletes
the code, answers `invalid_grant`, and a retry with the fully correct
parameters still gets `invalid_grant`. -/
theorem post_lookup_failure_consumes_code_witness :
    getCode (expressToken sampleSha 5 [("codeA", sampleExpressData)]
        { sampleExpressRequest with code_verifier := some "wrong" }).1 "codeA" = none ∧
      ((expressToken sampleSha 5 [("codeA", sampleExpressData)]
          { sampleExpressRequest with code_verifier := some "wrong" }).2.isOk = false →
        (expressToken sampleSha 5 [("codeA", sampleExpressData)]
          { sampleExpressRequest with code_verifier := some "wrong" }).2.errCode
          = some "invalid_grant") ∧
      expressToken sampleSha 6
          (expressToken sampleSha 5 [("codeA", sampleExpressData)]
            { sampleExpressRequest with code_verifier := some "wrong" }).1
          sampleExpressRequest
        = ((expressToken sampleSha 5 [("codeA", sampleExpressData)]
             { sampleExpressRequest with code_verifier := some "wrong" }).1,
           .err 400 "invalid_grant" "Authorization code is invalid or expired") :=
  post_lookup_failure_consumes_code sampleSha 5 [("codeA", sampleExpressData)]
    { sampleExpressRequest with code_verifier := some "wrong" } "codeA"
    sampleExpressData 6 sampleExpressRequest (by decide) (by decide) rfl rfl
    (by decide) (by decide) rfl rfl

/-! ### C10: the Express callback trusts the client-supplied state blob -/

/-- C10.  The Express POST callback handler reconstructs the pending
authorization entirely from the client-supplied `state` parameter (decoded
as unsigned base64url JSON): for every syntactically valid blob whose
embedded timestamp is at most 10 minutes old, given a valid upstream
token/user, the handler mints an authorization code bound to whatever
`redirectUri`, `codeChallenge` (and method, client id, scope) and
`clientState` the blob contains.  The conclusion holds for EVERY prior
`authCodes` store `st` and the new store is exactly `st` plus the new
entry — no store is consulted and nothing is deleted — so it applies
regardless of whether `/oauth/authorize` ever issued that state. -/
theorem callback_trusts_state_blob (urlOk : String → Bool) (now : Int)
    (genCode : String) (user : UpstreamUser) (st : AuthStore)
    (refresh : Option String) (s tok u : String) (blob : StateBlob) (t : Int)
    (hs : s ≠ "") (hat : tok ≠ "")
    (ht : blob.timestamp = some t) (hfresh : ¬ now - t > 10 * 60 * 1000)
    (hu : blob.redirectUri = some u) (hurl : urlOk u = true) :
    expressCallbackPost urlOk now genCode (some user) st (some tok) refresh
        (some s) (some blob)
      = (setCode st genCode
          { accessToken := tok
            refreshToken := refresh
            codeChallenge := blob.codeChallenge
            codeChallengeMethod := blob.codeChallengeMethod
            redirectUri := blob.redirectUri
            clientId := blob.clientId
            scope := blob.scope
            expiresAt := now + codeExpirySeconds * 1000
            userId := user.id
            email := user.email },
         .okRedirect u genCode blob.clientState) := by
  unfold expressCallbackPost
  simp [hs, hat, blobExpired, ht, hu, hurl]
  omega

/-- A forged state blob that `/oauth/authorize` never issued: it binds the
would-be code to an attacker-chosen redirect URI and `plain` challenge. -/
def forgedBlob : StateBlob :=
  { clientState := some "attacker-state"
    redirectUri := some "https://attacker.example/cb"
    clientId := some "any-client"
    scope := some "openid"
    codeChallenge := some "attacker-challenge"
    codeChallengeMethod := some "plain"
    timestamp := some 999000 }

/-- Witness for C10: on the EMPTY store (so `/oauth/authorize` certainly
never issued this state), the POST callback happily mints a code bound to
the forged blob's data. -/
theorem callback_trusts_state_blob_witness :
    expressCallbackPost (fun _ => true) 1000000 "minted-code"
        (some { id := "victim-user", email := some "v@example.com" }) []
        (some "upstream-token") (some "upstream-refresh") (some "blob64")
        (some forgedBlob)
      = (setCode [] "minted-code"
          { accessToken := "upstream-token"
            refreshToken := some "upstream-refresh"
            codeChallenge := forgedBlob.codeChallenge
            codeChallengeMethod := forgedBlob.codeChallengeMethod
            redirectUri := forgedBlob.redirectUri
            clientId := forgedBlob.clientId
            scope := forgedBlob.scope
            expiresAt := 1000000 + codeExpirySeconds * 1000
            userId := "victim-user"
            email := some "v@example.com" },
         .okRedirect "https://attacker.example/cb" "minted-code"
           forgedBlob.clientState) :=
  callback_trusts_state_blob (fun _ => true) 1000000 "minted-code"
    { id := "victim-user", email := some "v@example.com" } []
    (some "upstream-refresh") "blob64" "upstream-token"
    "https://attacker.example/cb" forgedBlob 999000 (by decide) (by decide)
    rfl (by decide) rfl rfl

/-! ### C3: validation order of the token exchange handler -/

/-- C3 counterexample.  The claim assigns `invalid_grant` to the "code
presence and lookup" step, but presenting a well-formed
`authorization_code` request with the `code` parameter absent makes the
Express token endpoint answer `invalid_request` ("Missing authorization
code"), not `invalid_grant` — only the lookup failure yields
`invalid_grant`. -/
theorem token_missing_code_error_counterexample :
    expressToken sampleSha 0 []
        { grant_type := some "authorization_code", code := none,
          redirect_uri := none, code_verifier := none, client_id := none }
      = ([], .err 400 "invalid_request" "Missing authorization code") ∧
    (expressToken sampleSha 0 []
        { grant_type := some "authorization_code", code := none,
          redirect_uri := none, code_verifier := none, client_id := none }).2.errCode
      ≠ some "invalid_grant" := by
  constructor
  · decide
  · decide

/-- C3 (amended).  Complete characterization of the Express token
endpoint's short-circuit validation order: each distinct error reply fires
exactly when its step is the first to fail, in the order grant_type
(`unsupported_grant_type`), code presence (`invalid_request`), code lookup
(`invalid_grant`), code expiry (`invalid_grant`), code_verifier presence
(`invalid_request`), stored-challenge-method validity (`invalid_grant`),
PKCE challenge match (`invalid_grant`), redirect_uri match
(`invalid_grant`); and whenever token data is returned the stored code has
been deleted from the returned store. -/
theorem token_validation_order (sha : String → String) (now : Int)
    (st : AuthStore) (r : TokenRequest) :
    ((expressToken sha now st r).2
        = .err 400 "unsupported_grant_type" "Only authorization_code grant type is supported"
      ↔ r.grant_type ≠ some "authorization_code") ∧
    ((expressToken sha now st r).2
        = .err 400 "invalid_request" "Missing authorization code"
      ↔ r.grant_type = some "authorization_code" ∧ jsFalsy r.code = true) ∧
    ((expressToken sha now st r).2
        = .err 400 "invalid_grant" "Authorization code is invalid or expired"
      ↔ r.grant_type = some "authorization_code" ∧ jsFalsy r.code = false ∧
        getCode st (r.code.getD "") = none) ∧
    ((expressToken sha now st r).2
        = .err 400 "invalid_grant" "Authorization code expired"
      ↔ r.grant_type = some "authorization_code" ∧ jsFalsy r.code = false ∧
        (∃ d, getCode st (r.code.getD "") = some d ∧ d.expiresAt < now)) ∧
    ((expressToken sha now st r).2
        = .err 400 "invalid_request" "code_verifier is required for PKCE"
      ↔ r.grant_type = some "authorization_code" ∧ jsFalsy r.code = false ∧
        (∃ d, getCode st (r.code.getD "") = some d ∧ ¬ d.expiresAt < now) ∧
        jsFalsy r.code_verifier = true) ∧
    ((expressToken sha now st r).2
        = .err 400 "invalid_grant" "Unsupported code_challenge_method"
      ↔ r.grant_type = some "authorization_code" ∧ jsFalsy r.code = false ∧
        jsFalsy r.code_verifier = false ∧
        (∃ d, getCode st (r.code.getD "") = some d ∧ ¬ d.expiresAt < now ∧
          computeChallenge sha d.codeChallengeMethod (r.code_verifier.getD "") = none)) ∧
    ((expressToken sha now st r).2
        = .err 400 "invalid_grant" "PKCE verification failed"
      ↔ r.grant_type = some "authorization_code" ∧ jsFalsy r.code = false ∧
        jsFalsy r.code_verifier = false ∧
        (∃ d, getCode st (r.code.getD "") = some d ∧ ¬ d.expiresAt < now ∧
          ∃ ch, computeChallenge sha d.codeChallengeMethod (r.code_verifier.getD "")
              = some ch ∧ some ch ≠ d.codeChallenge)) ∧
    ((expressToken sha now st r).2
        = .err 400 "invalid_grant" "redirect_uri does not match"
      ↔ r.grant_type = some "authorization_code" ∧ jsFalsy r.code = false ∧
        jsFalsy r.code_verifier = false ∧
        (∃ d, getCode st (r.code.getD "") = some d ∧ ¬ d.expiresAt < now ∧
          (∃ ch, computeChallenge sha d.codeChallengeMethod (r.code_verifier.getD "")
              = some ch ∧ some ch = d.codeChallenge) ∧
          r.redirect_uri ≠ d.redirectUri)) ∧
    ((expressToken sha now st r).2.isOk = true
      ↔ r.grant_type = some "authorization_code" ∧ jsFalsy r.code = false ∧
        jsFalsy r.code_verifier = false ∧
        (∃ d, getCode st (r.code.getD "") = some d ∧ ¬ d.expiresAt < now ∧
          (∃ ch, computeChallenge sha d.codeChallengeMethod (r.code_verifier.getD "")
              = some ch ∧ some ch = d.codeChallenge) ∧
          r.redirect_uri = d.redirectUri)) ∧
    ((expressToken sha now st r).2.isOk = false ∨
      getCode (expressToken sha now st r).1 (r.code.getD "") = none) := by
  by_cases hg : r.grant_type = some "authorization_code"
  · by_cases hfal : jsFalsy r.code = true
    · simp [expressToken, hg, hfal, TokenReply.isOk]
    · rcases hd : getCode st (r.code.getD "") with _ | d
      · simp [expressToken, hg, hfal, hd, TokenReply.isOk]
      · by_cases hexp : d.expiresAt < now
        · simp [expressToken, hg, hfal, hd, hexp, TokenReply.isOk]
        · by_cases hv : jsFalsy r.code_verifier = true
          · simp [expressToken, hg, hfal, hd, hexp, le_of_not_lt hexp, hv,
              TokenReply.isOk]
          · rcases hcc : computeChallenge sha d.codeChallengeMethod
                (r.code_verifier.getD "") with _ | ch
            · simp [expressToken, hg, hfal, hd, hexp, le_of_not_lt hexp, hv,
                hcc, TokenReply.isOk]
            · by_cases heq : some ch = d.codeChallenge
              · by_cases hru : r.redirect_uri = d.redirectUri
                · simp [expressToken, hg, hfal, hd, hexp, le_of_not_lt hexp,
                    hv, hcc, ← heq, hru, TokenReply.isOk, getCode_delCode_self]
                · simp [expressToken, hg, hfal, hd, hexp, le_of_not_lt hexp,
                    hv, hcc, ← heq, hru, TokenReply.isOk]
              · simp [expressToken, hg, hfal, hd, hexp, le_of_not_lt hexp, hv,
                  hcc, heq, TokenReply.isOk]
  · simp [expressToken, hg, TokenReply.isOk]

/-! ### C4: single-use state at the callback handlers -/

/-- The state blob produced by a fully parameterized legitimate
`/oauth/authorize` request to the lenient Express router at time 1000. -/
def legitQuery : AuthorizeQuery :=
  { client_id := some "mcp-client"
    redirect_uri := some "https://client.example/cb"
    response_type := some "code"
    state := some "client-state"
    scope := some "openid"
    code_challenge := some "digest-of-verifier-xyz"
    code_challenge_method := some "S256" }

/-- The blob the Express router encodes into the upstream redirect for
`legitQuery`. -/
def legitBlob : StateBlob :=
  { clientState := some "client-state"
    redirectUri := some "https://client.example/cb"
    clientId := some "mcp-client"
    scope := some "openid"
    codeChallenge := some "digest-of-verifier-xyz"
    codeChallengeMethod := some "S256"
    timestamp := some 1000 }

/-- A concrete Supabase session for runs of the Express GET callback. -/
def sampleSession : ExpressSession :=
  { accessToken := "sb-access"
    refreshToken := some "sb-refresh"
    user := { id := "user-1", email := some "u1@example.com" } }

/-- C4 counterexample.  In the Express implementation the state presented
to the callback handler is the encoded blob itself and there is no
server-side pending store: presenting the very state issued by
`/oauth/authorize` to `GET /oauth/callback` twice within its 10-minute
window succeeds BOTH times, each time minting a fresh code — so "succeeds
at most once" is false for the cited Express callback handler. -/
theorem state_replay_counterexample :
    expressAuthorize 1000 "gen-state" "gen-challenge" legitQuery
      = .redirectUpstream legitBlob ∧
    (expressCallbackGet (fun _ => true) 2000 "code1" (some sampleSession) []
        (some "encoded-blob") (some "sb-code") none (some legitBlob)).2.issuedCode
      = true ∧
    (expressCallbackGet (fun _ => true) 3000 "code2" (some sampleSession)
        (expressCallbackGet (fun _ => true) 2000 "code1" (some sampleSession) []
          (some "encoded-blob") (some "sb-code") none (some legitBlob)).1
        (some "encoded-blob") (some "sb-code") none (some legitBlob)).2.issuedCode
      = true := by
  refine ⟨?_, ?_, ?_⟩ <;> decide

/-- A successful lookup in `src/server.js`'s callback deletes the pending
record, whatever happens afterwards (upstream failure or success, valid or
invalid redirect URL). -/
lemma serverCallback_found_deletes (urlOk : String → Bool) (now : Int)
    (genCode : String) (upstream : Option SrvSession) (pend : PendStore)
    (codes : SrvStore) (sc key : String) (p : Pending)
    (hsc : sc ≠ "") (hkey : key ≠ "") (hp : getPending pend key = some p) :
    (serverCallback urlOk now genCode upstream pend codes (some sc) (some key)
        none).1 = delPending pend key := by
  unfold serverCallback
  rcases upstream with _ | sess
  · simp [hsc, hkey, hp]
  · simp only [jsFalsy_none, jsFalsy_some, Bool.not_eq_true, Option.getD_some]
    simp [hsc, hkey, hp]
    split <;> rfl

/-- A lookup miss in `src/server.js`'s callback changes nothing and denies
the request. -/
lemma serverCallback_miss (urlOk : String → Bool) (now : Int)
    (genCode : String) (upstream : Option SrvSession) (pend : PendStore)
    (codes : SrvStore) (sc key : String)
    (hsc : sc ≠ "") (hkey : key ≠ "") (hmiss : getPending pend key = none) :
    serverCallback urlOk now genCode upstream pend codes (some sc) (some key)
        none
      = (pend, codes, .deny 400 none "Invalid or expired authorization request") := by
  unfold serverCallback
  simp [hsc, hkey, hmiss]

/-- C4 (amended).  In the `src/server.js` implementation, presenting the
same `stateToken` to the callback handler twice succeeds at most once: the
pending-authorization record is deleted upon first successful lookup,
before the upstream exchange is even attempted, and a second presentation
— like any `stateToken` with no stored record — always fails with HTTP
400 ("Invalid or expired authorization request", a plain-text body) and
issues no code.  (The Express variant keeps no server-side pending store
and does not provide this guarantee, see the counterexample; and
`src/server.js` never expiry-checks pending records.) -/
theorem state_single_use (urlOk urlOk2 : String → Bool) (now now2 : Int)
    (genCode genCode2 : String) (upstream upstream2 : Option SrvSession)
    (pend : PendStore) (codes codes2 : SrvStore) (sc sc2 key : String)
    (p : Pending)
    (hsc : sc ≠ "") (hsc2 : sc2 ≠ "") (hkey : key ≠ "")
    (hp : getPending pend key = some p) :
    getPending (serverCallback urlOk now genCode upstream pend codes (some sc)
        (some key) none).1 key = none ∧
      serverCallback urlOk2 now2 genCode2 upstream2
          (serverCallback urlOk now genCode upstream pend codes (some sc)
            (some key) none).1
          codes2 (some sc2) (some key) none
        = ((serverCallback urlOk now genCode upstream pend codes (some sc)
             (some key) none).1,
           codes2, .deny 400 none "Invalid or expired authorization request") := by
  have hdel := serverCallback_found_deletes urlOk now genCode upstream pend
    codes sc key p hsc hkey hp
  have habs : getPending (serverCallback urlOk now genCode upstream pend codes
      (some sc) (some key) none).1 key = none := by
    rw [hdel]; exact getPending_delPending_self pend key
  exact ⟨habs, serverCallback_miss urlOk2 now2 genCode2 upstream2 _ codes2 sc2
    key hsc2 hkey habs⟩

/-- A concrete pending record for witness runs. -/
def samplePending : Pending :=
  { clientId := "client-1"
    redirectUri := "https://client.example/cb"
    codeChallenge := "digest-of-verifier-xyz"
    codeChallengeMethod := "S256"
    mcpState := some "client-state"
    createdAt := 0 }

/-- Witness for the amended C4: a concrete first callback consumes the
pending record and the literal second callback is denied without issuing a
code. -/
theorem state_single_use_witness :
    getPending (serverCallback (fun _ => true) 100 "codeB"
        (some { accessToken := "sb-access", userId := "user-1" })
        [("state1", samplePending)] [] (some "sb-code") (some "state1")
        none).1 "state1" = none ∧
      serverCallback (fun _ => true) 200 "codeC"
          (some { accessToken := "sb-access", userId := "user-1" })
          (serverCallback (fun _ => true) 100 "codeB"
            (some { accessToken := "sb-access", userId := "user-1" })
            [("state1", samplePending)] [] (some "sb-code") (some "state1")
            none).1
          [] (some "sb-code") (some "state1") none
        = ((serverCallback (fun _ => true) 100 "codeB"
             (some { accessToken := "sb-access", userId := "user-1" })
             [("state1", samplePending)] [] (some "sb-code") (some "state1")
             none).1,
           [], .deny 400 none "Invalid or expired authorization request") :=
  state_single_use (fun _ => true) (fun _ => true) 100 200 "codeB" "codeC"
    (some { accessToken := "sb-access", userId := "user-1" })
    (some { accessToken := "sb-access", userId := "user-1" })
    [("state1", samplePending)] [] [] "sb-code" "sb-code" "state1"
    samplePending (by decide) (by decide) (by decide) (by decide)

/-! ### C6: TTL enforcement -/

/-- C6 counterexample.  A `PendingAuthorization` of `src/server.js` is NOT
treated as absent after its TTL: the callback handler performs no expiry
check on pending records (and the periodic sweep only touches
`authorizationCodes`), so a pending record created at time 0 is still
accepted — and still mints a code — at `now = 10^9` ms (over 11 days
later, far beyond any 10-minute TTL). -/
theorem stale_pending_accepted_counterexample :
    (serverCallback (fun _ => true) 1000000000 "codeX"
        (some { accessToken := "sb-access", userId := "user-1" })
        [("stale-state", samplePending)] [] (some "sb-code")
        (some "stale-state") none).2.2
      = .redirectClient "https://client.example/cb" "codeX"
          (some "client-state") := by
  decide

/-- C6 (amended).  TTL enforcement as the code actually implements it:
(1) the Express token endpoint treats a stored code with
`expiresAt < now` as invalid — `invalid_grant` — and purges it;
(2) so does the `src/server.js` token endpoint;
(3) the Express periodic sweep removes exactly the expired code entries,
matching the lazy check, and (4) so does the `src/server.js` sweep (which
covers only `authorizationCodes`);
(5) the Express POST callback rejects a state blob older than 10 minutes
(as a 500 `server_error`), and (6) so does the GET callback (500 HTML).
`src/server.js` `PendingAuthorization` records, by contrast, are never
expiry-checked nor swept (see the counterexample). -/
theorem ttl_enforcement :
    (∀ (sha : String → String) (now : Int) (st : AuthStore) (r : TokenRequest)
        (c : String) (d : ExpressCodeData),
      getCode st c = some d → d.expiresAt < now →
      r.grant_type = some "authorization_code" → r.code = some c → c ≠ "" →
      expressToken sha now st r
        = (delCode st c, .err 400 "invalid_grant" "Authorization code expired")) ∧
    (∀ (sha : String → String) (now : Int) (st : SrvStore) (r : TokenRequest)
        (c : String) (a : SrvCodeData),
      getSrvCode st c = some a → a.expiresAt < now →
      r.grant_type = some "authorization_code" → r.code = some c → c ≠ "" →
      jsFalsy r.redirect_uri = false → jsFalsy r.client_id = false →
      jsFalsy r.code_verifier = false →
      serverToken sha now st r
        = (delSrvCode st c, .err 400 "invalid_grant" "Code expired")) ∧
    (∀ (now : Int) (st : AuthStore) (p : String × ExpressCodeData),
      p ∈ expressCleanup now st ↔ p ∈ st ∧ ¬ p.2.expiresAt < now) ∧
    (∀ (now : Int) (codes : SrvStore) (p : String × SrvCodeData),
      p ∈ serverCleanup now codes ↔ p ∈ codes ∧ ¬ p.2.expiresAt < now) ∧
    (∀ (urlOk : String → Bool) (now : Int) (genCode : String)
        (upstream : Option UpstreamUser) (st : AuthStore)
        (tok s : String) (refresh : Option String) (blob : StateBlob) (t : Int),
      tok ≠ "" → s ≠ "" → blob.timestamp = some t → now - t > 10 * 60 * 1000 →
      expressCallbackPost urlOk now genCode upstream st (some tok) refresh
          (some s) (some blob)
        = (st, .errJson 500 "server_error" "OAuth state expired")) ∧
    (∀ (urlOk : String → Bool) (now : Int) (genCode : String)
        (upstream : Option ExpressSession) (st : AuthStore)
        (s sc : String) (blob : StateBlob) (t : Int),
      s ≠ "" → sc ≠ "" → blob.timestamp = some t → now - t > 10 * 60 * 1000 →
      expressCallbackGet urlOk now genCode upstream st (some s) (some sc) none
          (some blob)
        = (st, .errHtml 500)) := by
  refine ⟨?_, ?_, ?_, ?_, ?_, ?_⟩
  · intro sha now st r c d hd hexp hg hc hne
    unfold expressToken
    rw [hc]
    simp [hg, hne, hd, hexp]
  · intro sha now st r c a ha hexp hg hc hne hru hci hv
    unfold serverToken
    rw [hc]
    simp [hg, hne, ha, hexp, hru, hci, hv]
  · intro now st p
    simp [expressCleanup, List.mem_filter]
  · intro now codes p
    simp [serverCleanup, List.mem_filter]
  · intro urlOk now genCode upstream st tok s refresh blob t htok hs ht hold
    have hcond : blobExpired now blob.timestamp = true := by
      simp [blobExpired, ht]; omega
    unfold expressCallbackPost
    simp [htok, hs, hcond]
  · intro urlOk now genCode upstream st s sc blob t hs hsc ht hold
    have hcond : blobExpired now blob.timestamp = true := by
      simp [blobExpired, ht]; omega
    unfold expressCallbackGet
    simp [hs, hsc, hcond]

/-- Witness for the amended C6: an expired code is purged with
`invalid_grant` on both token endpoints; the sweeps drop a concrete
expired entry and keep a live one; both Express callbacks reject a
10-minute-old blob. -/
theorem ttl_enforcement_witness :
    expressToken sampleSha 2000000 [("codeA", sampleExpressData)]
        sampleExpressRequest
      = (delCode [("codeA", sampleExpressData)] "codeA",
         .err 400 "invalid_grant" "Authorization code expired") ∧
    serverToken sampleSha 2000000 [("codeB", sampleSrvData)] sampleSrvRequest
      = (delSrvCode [("codeB", sampleSrvData)] "codeB",
         .err 400 "invalid_grant" "Code expired") ∧
    (("codeA", sampleExpressData) ∈ expressCleanup 2000000
        [("codeA", sampleExpressData)]
      ↔ ("codeA", sampleExpressData) ∈ [("codeA", sampleExpressData)] ∧
          ¬ sampleExpressData.expiresAt < 2000000) ∧
    (("codeB", sampleSrvData) ∈ serverCleanup 2000000 [("codeB", sampleSrvData)]
      ↔ ("codeB", sampleSrvData) ∈ [("codeB", sampleSrvData)] ∧
          ¬ sampleSrvData.expiresAt < 2000000) ∧
    expressCallbackPost (fun _ => true) 2000000 "codeZ"
        (some { id := "user-1", email := none }) [] (some "tok") none
        (some "blob64") (some legitBlob)
      = ([], .errJson 500 "server_error" "OAuth state expired") ∧
    expressCallbackGet (fun _ => true) 2000000 "codeZ" (some sampleSession) []
        (some "blob64") (some "sb-code") none (some legitBlob)
      = ([], .errHtml 500) := by
  refine ⟨?_, ?_, ?_, ?_, ?_, ?_⟩
  · exact ttl_enforcement.1 sampleSha 2000000 [("codeA", sampleExpressData)]
      sampleExpressRequest "codeA" sampleExpressData (by decide) (by decide)
      rfl rfl (by decide)
  · exact ttl_enforcement.2.1 sampleSha 2000000 [("codeB", sampleSrvData)]
      sampleSrvRequest "codeB" sampleSrvData (by decide) (by decide) rfl rfl
      (by decide) (by decide) (by decide) (by decide)
  · exact ttl_enforcement.2.2.1 2000000 [("codeA", sampleExpressData)]
      ("codeA", sampleExpressData)
  · exact ttl_enforcement.2.2.2.1 2000000 [("codeB", sampleSrvData)]
      ("codeB", sampleSrvData)
  · exact ttl_enforcement.2.2.2.2.1 (fun _ => true) 2000000 "codeZ"
      (some { id := "user-1", email := none }) [] "tok" "blob64" none
      legitBlob 1000 (by decide) (by decide) rfl (by decide)
  · exact ttl_enforcement.2.2.2.2.2 (fun _ => true) 2000000 "codeZ"
      (some sampleSession) [] "blob64" "sb-code" legitBlob 1000 (by decide)
      (by decide) rfl (by decide)

/-! ### C7: rejection of malformed authorization requests -/

/-- C7 counterexample.  The lenient Express router does NOT reject an
authorization request with a missing `redirect_uri`: it substitutes the
default `http://localhost:3000/oauth/callback` and proceeds with the flow
(returning the upstream redirect, not an error). -/
theorem authorize_missing_redirect_counterexample :
    expressAuthorize 1000 "gen-state" "gen-challenge"
        { legitQuery with redirect_uri := none }
      = .redirectUpstream
          { legitBlob with redirectUri := some "http://localhost:3000/oauth/callback" } ∧
    (expressAuthorize 1000 "gen-state" "gen-challenge"
        { legitQuery with redirect_uri := none }).isReject = false := by
  constructor
  · decide
  · decide

/-- C7 (amended).  Where malformed authorization requests ARE rejected
before any store write: (1) the Vercel handler answers `invalid_request`
to a missing `redirect_uri` and (2) `unsupported_response_type` to a
present non-`code` `response_type`, each leaving its `stateStore`
untouched; (3)-(4) the strict Express variant does the same (its authorize
endpoint never writes any store at all); (5) `src/server.js` rejects a
non-`code` `response_type` and (6) a missing `redirect_uri` with HTTP 400
(plain-text bodies, no machine-readable code), leaving
`pendingAuthorizations` untouched; (7) the lenient Express router only
rejects an explicitly non-`code` `response_type` with
`unsupported_response_type` — a missing `redirect_uri` is defaulted
instead (see the counterexample). -/
theorem authorize_reject_before_store :
    (∀ (now : Int) (g : String) (store : VercelStateStore) (q : AuthorizeQuery),
      jsFalsy q.redirect_uri = true →
      vercelAuthorize now g store q
        = (store, .reject 400 "invalid_request" "Missing required OAuth parameters")) ∧
    (∀ (now : Int) (g : String) (store : VercelStateStore) (q : AuthorizeQuery),
      jsFalsy q.redirect_uri = false → jsFalsy q.response_type = false →
      jsFalsy q.state = false → q.response_type ≠ some "code" →
      vercelAuthorize now g store q
        = (store, .reject 400 "unsupported_response_type"
            "Only \"code\" response type is supported")) ∧
    (∀ (now : Int) (q : AuthorizeQuery),
      jsFalsy q.redirect_uri = true →
      strictAuthorize now q
        = .reject 400 "invalid_request"
            "Missing required OAuth parameters (redirect_uri, response_type, state)") ∧
    (∀ (now : Int) (q : AuthorizeQuery),
      jsFalsy q.redirect_uri = false → jsFalsy q.response_type = false →
      jsFalsy q.state = false → q.response_type ≠ some "code" →
      strictAuthorize now q
        = .reject 400 "unsupported_response_type"
            "Only \"code\" response type is supported") ∧
    (∀ (now : Int) (g : String) (clients : ClientStore) (pend : PendStore)
        (q : AuthorizeQuery),
      q.response_type ≠ some "code" →
      serverAuthorize now g clients pend q
        = (pend, .deny 400 none "Only authorization code flow is supported")) ∧
    (∀ (now : Int) (g : String) (clients : ClientStore) (pend : PendStore)
        (q : AuthorizeQuery),
      q.response_type = some "code" → jsFalsy q.redirect_uri = true →
      serverAuthorize now g clients pend q
        = (pend, .deny 400 none "Missing required parameters")) ∧
    (∀ (now : Int) (gs gc rt : String) (q : AuthorizeQuery),
      q.response_type = some rt → rt ≠ "" → rt ≠ "code" →
      expressAuthorize now gs gc q
        = .reject 400 "unsupported_response_type"
            "Only \"code\" response type is supported") := by
  refine ⟨?_, ?_, ?_, ?_, ?_, ?_, ?_⟩
  · intro now g store q h
    unfold vercelAuthorize
    simp [h]
  · intro now g store q h1 h2 h3 h4
    unfold vercelAuthorize
    simp [h1, h2, h3, h4]
  · intro now q h
    unfold strictAuthorize
    simp [h]
  · intro now q h1 h2 h3 h4
    unfold strictAuthorize
    simp [h1, h2, h3, h4]
  · intro now g clients pend q h
    unfold serverAuthorize
    simp [h]
  · intro now g clients pend q h1 h2
    unfold serverAuthorize
    simp [h1, h2]
  · intro now gs gc rt q h1 h2 h3
    unfold expressAuthorize
    simp [h1, h2, h3]

/-- Witness for the amended C7: all seven rejection behaviours at concrete
inputs. -/
theorem authorize_reject_before_store_witness :
    vercelAuthorize 1000 "vs" [] { legitQuery with redirect_uri := none }
      = ([], .reject 400 "invalid_request" "Missing required OAuth parameters") ∧
    vercelAuthorize 1000 "vs" [] { legitQuery with response_type := some "token" }
      = ([], .reject 400 "unsupported_response_type"
          "Only \"code\" response type is supported") ∧
    strictAuthorize 1000 { legitQuery with redirect_uri := none }
      = .reject 400 "invalid_request"
          "Missing required OAuth parameters (redirect_uri, response_type, state)" ∧
    strictAuthorize 1000 { legitQuery with response_type := some "token" }
      = .reject 400 "unsupported_response_type"
          "Only \"code\" response type is supported" ∧
    serverAuthorize 1000 "is" [] [] { legitQuery with response_type := some "token" }
      = ([], .deny 400 none "Only authorization code flow is supported") ∧
    serverAuthorize 1000 "is" [] [] { legitQuery with redirect_uri := none }
      = ([], .deny 400 none "Missing required parameters") ∧
    expressAuthorize 1000 "gs" "gc" { legitQuery with response_type := some "token" }
      = .reject 400 "unsupported_response_type"
          "Only \"code\" response type is supported" := by
  refine ⟨?_, ?_, ?_, ?_, ?_, ?_, ?_⟩
  · exact authorize_reject_before_store.1 1000 "vs" []
      { legitQuery with redirect_uri := none } (by decide)
  · exact authorize_reject_before_store.2.1 1000 "vs" []
      { legitQuery with response_type := some "token" } (by decide) (by decide)
      (by decide) (by decide)
  · exact authorize_reject_before_store.2.2.1 1000
      { legitQuery with redirect_uri := none } (by decide)
  · exact authorize_reject_before_store.2.2.2.1 1000
      { legitQuery with response_type := some "token" } (by decide) (by decide)
      (by decide) (by decide)
  · exact authorize_reject_before_store.2.2.2.2.1 1000 "is" [] []
      { legitQuery with response_type := some "token" } (by decide)
  · exact authorize_reject_before_store.2.2.2.2.2.1 1000 "is" [] []
      { legitQuery with redirect_uri := none } rfl (by decide)
  · exact authorize_reject_before_store.2.2.2.2.2.2 1000 "gs" "gc" "token"
      { legitQuery with response_type := some "token" } rfl (by decide)
      (by decide)

/-! ### C8: missing code_challenge — strict rejection vs lenient downgrade -/

/-- C8.  When `/oauth/authorize` is called with `code_challenge` omitted
entirely (and the request otherwise well-formed), the strict
implementation (the strict Express variant kept in the repository) returns
HTTP 400 `invalid_request` — its authorize endpoint stores nothing on any
path, so in particular no state is stored before the rejection — while
the lenient variant (`src/src/routes/oauth.js`) instead generates a
self-chosen challenge, downgrades the recorded method to `plain`, and
proceeds with the flow. -/
theorem missing_pkce_strict_vs_lenient :
    (∀ (now : Int) (q : AuthorizeQuery),
      jsFalsy q.redirect_uri = false → jsFalsy q.response_type = false →
      jsFalsy q.state = false → q.response_type = some "code" →
      jsFalsy q.code_challenge = true →
      strictAuthorize now q
        = .reject 400 "invalid_request"
            "PKCE is required. Must include code_challenge with S256 method") ∧
    (∀ (now : Int) (gs gc : String) (q : AuthorizeQuery),
      (jsFalsy q.response_type = true ∨ q.response_type = some "code") →
      jsFalsy q.code_challenge = true →
      ∃ blob, expressAuthorize now gs gc q = .redirectUpstream blob ∧
        blob.codeChallenge = some gc ∧ blob.codeChallengeMethod = some "plain") := by
  constructor
  · intro now q h1 h2 h3 h4 h5
    unfold strictAuthorize
    simp [h1, h2, h3, h4, h5]
  · intro now gs gc q hrt hcc
    have heq : expressAuthorize now gs gc q = .redirectUpstream
        { clientState := some (if jsFalsy q.state = true then gs else q.state.getD "")
          redirectUri := some (if jsFalsy q.redirect_uri = true
            then "http://localhost:3000/oauth/callback" else q.redirect_uri.getD "")
          clientId := some (if jsFalsy q.client_id = true then "mcp-client"
            else q.client_id.getD "")
          scope := some (if jsFalsy q.scope = true then "openid" else q.scope.getD "")
          codeChallenge := some gc
          codeChallengeMethod := some "plain"
          timestamp := some now } := by
      unfold expressAuthorize
      rcases hrt with h | h
      · simp [h, hcc]
      · have hne : ¬ jsFalsy q.response_type = true := by simp [h, jsFalsy]
        simp [h, hne, hcc]
    exact ⟨_, heq, rfl, rfl⟩

/-- Witness for C8: a request omitting `code_challenge` is rejected with
400 `invalid_request` by the strict variant and downgraded to a
self-chosen `plain` challenge by the lenient one. -/
theorem missing_pkce_strict_vs_lenient_witness :
    strictAuthorize 1000
        { legitQuery with code_challenge := none, code_challenge_method := none }
      = .reject 400 "invalid_request"
          "PKCE is required. Must include code_challenge with S256 method" ∧
    (∃ blob, expressAuthorize 1000 "gs" "gen-challenge"
          { legitQuery with code_challenge := none, code_challenge_method := none }
        = .redirectUpstream blob ∧
      blob.codeChallenge = some "gen-challenge" ∧
      blob.codeChallengeMethod = some "plain") :=
  ⟨missing_pkce_strict_vs_lenient.1 1000
      { legitQuery with code_challenge := none, code_challenge_method := none }
      (by decide) (by decide) (by decide) rfl (by decide),
   missing_pkce_strict_vs_lenient.2 1000 "gs" "gen-challenge"
      { legitQuery with code_challenge := none, code_challenge_method := none }
      (Or.inr rfl) (by decide)⟩

end MacroMcp
